import Mathlib

/-!
# Verification of the `handyaws-frontauth` edge-request gatekeeper

Shallow embedding of the repository's source files:

* `src/frontAuth.js`        (the default export, `frontAuth`)
* `src/getAuthorizedRequest.js`
* `src/getAuthBearerToken.js`
* `src/setCookieResponse.js`

External collaborators (the `@sspiff/handyaws` configuration/tag reader, the
`@sspiff/handy-keypair` JWT verifier with its public-key cache, the cookie
header parser, and the JavaScript regular-expression engine) are modelled as
explicit function parameters, mirroring the contracts in the specification.
JavaScript exceptions / rejected promises are modelled with `Except String`;
the thrown string values (`'EACCES'`, `'EINVAL'`, …) are kept.  A JavaScript
value that may be `undefined` is modelled with `Option`.
-/

/-- One entry of a CloudFront header list: `{key: ..., value: ...}`. -/
structure HeaderEntry where
  key : String
  value : String
deriving Repr, DecidableEq

/-- CloudFront request/response headers: lowercase header name mapped to an
ordered list of entries. -/
abbrev Headers := List (String × List HeaderEntry)

/-- A CloudFront viewer request (the fields the source reads). -/
structure Request where
  method : String
  uri : String
  headers : Headers
deriving Repr, DecidableEq

/-- Model of `event.Records[i].cf`; the source only reads `.request`. -/
structure CF where
  request : Request
deriving Repr, DecidableEq

/-- One element of `event.Records`. -/
structure CFRecord where
  cf : CF
deriving Repr, DecidableEq

/-- A Lambda@Edge event; the source reads `event.Records[0].cf.request`. -/
structure Event where
  Records : List CFRecord
deriving Repr, DecidableEq

/-- A CloudFront response object.  `headers := none` models a response object
literal without a `headers` field (the Forbidden response). -/
structure Response where
  status : String
  statusDescription : String
  headers : Option Headers
deriving Repr, DecidableEq

/-- What `frontAuth` resolves to: either a response object, or (allow path)
the request object itself passed through. -/
inductive FrontAuthResult where
  | response (r : Response)
  | request (r : Request)
deriving Repr, DecidableEq

/-- The uniform rejection built in `frontAuth`'s catch block:
`{status: '403', statusDescription: 'Forbidden'}`. -/
def forbiddenResponse : Response :=
  { status := "403", statusDescription := "Forbidden", headers := none }

/-- A dynamically typed JavaScript value, for the configuration fields the
swizzling code inspects with truthiness tests and `typeof`. -/
inductive JSValue where
  | str (s : String)
  | num (n : Int)
  | list (xs : List String)
  | undefined
  | nan
deriving Repr, DecidableEq

/-- JavaScript truthiness of a `JSValue`. -/
def JSValue.truthy : JSValue → Bool
  | .str s => s ≠ ""
  | .num n => n ≠ 0
  | .list _ => true
  | .undefined => false
  | .nan => false

/-- JavaScript `typeof v === 'string'`. -/
def JSValue.isString : JSValue → Bool
  | .str _ => true
  | _ => false

/-- The string payload of a string-valued `JSValue` (only read under an
`isString` guard). -/
def JSValue.strVal : JSValue → String
  | .str s => s
  | _ => ""

/-- Split a character list at every occurrence of the separator character,
keeping empty segments, as JavaScript's `String.prototype.split` does with a
one-character separator. -/
def splitChar (c : Char) : List Char → List (List Char)
  | [] => [[]]
  | x :: xs =>
    match splitChar c xs with
    | [] => [[]]
    | y :: ys => if x = c then [] :: y :: ys else (x :: y) :: ys

/-- JavaScript `s.split(' ')`. -/
def jsSplitSpace (s : String) : List String :=
  (splitChar ' ' s.data).map fun cs => String.mk cs

/-- JavaScript `s.trim()`: strip leading and trailing whitespace. -/
def jsTrim (s : String) : String :=
  String.mk (((s.data.dropWhile Char.isWhitespace).reverse.dropWhile Char.isWhitespace).reverse)

/-- Parse a leading base-10 integer as JavaScript's `parseInt` does on a
string: skip surrounding whitespace, optional sign, then leading decimal
digits; `none` models `NaN` (no digits). -/
def parseIntString (s : String) : Option Int :=
  let cs := (jsTrim s).toList
  let signAndRest : Int × List Char :=
    match cs with
    | '-' :: rest => (-1, rest)
    | '+' :: rest => (1, rest)
    | _ => (1, cs)
  let ds := signAndRest.2.takeWhile Char.isDigit
  if ds.isEmpty then none
  else some (signAndRest.1 * (ds.foldl (fun acc c => acc * 10 + (c.toNat - 48)) 0 : Nat))

/-- JavaScript `parseInt(v)`: the argument is coerced to a string first
(`String(undefined) = "undefined"`, arrays join with `","`), then parsed. -/
def jsParseInt : JSValue → JSValue
  | .str s => (parseIntString s).elim JSValue.nan JSValue.num
  | .num n => .num n
  | .list xs => (parseIntString (String.intercalate "," xs)).elim JSValue.nan JSValue.num
  | .undefined => .nan
  | .nan => .nan

/-- The `jwtVerifyOptions` record read by the swizzling step. -/
structure JwtVerifyOptions where
  algorithms : JSValue
  clockTolerance : JSValue
  maxAge : JSValue
deriving Repr, DecidableEq

/-- Type of the verification capability
`jwtVerify(token, keyPairName, jwtVerifyOptions) -> Promise<Claims>`; a
rejected promise is an `Except.error`.  The token slot is `Option String`
because the source may pass an `undefined` token through unchecked. -/
def VerifyFn (Claims : Type) :=
  Option String → String → Option JwtVerifyOptions → Except String Claims

/-- The configuration object resolved from the Lambda function's resource
tags.  `clockTolerance` is the *top level* `config.clockTolerance` property
(normally `undefined` — the documented tag namespace only defines
`cfg.jwtVerifyOptions.clockTolerance`); the swizzling code reads it.
`jwtVerify` is `config.jwtVerify` (normally absent, in which case the
gatekeeper installs the external default verifier). -/
structure Config (Claims : Type) where
  keyPairName : String
  publicKeyStore : String
  setCookieUri : Option String
  tokenCookieName : String
  tokenCookieConfig : Option String
  clockTolerance : JSValue
  jwtVerifyOptions : Option JwtVerifyOptions
  jwtVerify : Option (VerifyFn Claims)

/-- The object bound as `this` to `frontAuth` (the two caller-supplied
helpers; `getSetCookieToken` is optional — the source tests its presence). -/
structure BoundThis (Claims : Type) where
  getSetCookieToken : Option (Request → Except String (Option String))
  getAuthorizedPatterns : Config Claims → Claims → Except String (List String)

/-!
## `src/setCookieResponse.js`
-/

/-- The destructured argument `{cookieName, cookieConfig, token}` of
`setCookieResponse`. -/
structure SetCookieArgs where
  cookieName : String
  cookieConfig : String
  token : String
deriving Repr, DecidableEq

/-- Embedding of `setCookieResponse.js`:
`cookieConfig = (cookieConfig && "; " + cookieConfig) || ''` followed by a
204 response whose `Set-Cookie` value is `cookieName=token cookieConfig`. -/
def setCookieResponse (args : SetCookieArgs) : Response :=
  let cookieConfig := if args.cookieConfig == "" then "" else "; " ++ args.cookieConfig
  { status := "204"
    statusDescription := "OK"
    headers := some [("set-cookie",
      [{ key := "Set-Cookie"
         value := args.cookieName ++ "=" ++ args.token ++ cookieConfig }])] }

/-!
## `src/getAuthBearerToken.js`
-/

/-- Embedding of `getAuthBearerToken.js`: destructure
`[scheme, token] = request.headers.authorization[0].value.split(' ')`;
return `token` when the scheme is `Bearer`, otherwise `throw 'EINVAL'`.
A missing `authorization` header (or an empty entry list) makes the
JavaScript property access throw a `TypeError`. -/
def getAuthBearerToken (request : Request) : Except String (Option String) :=
  match ((request.headers.lookup "authorization").getD []).head? with
  | none => .error "TypeError"
  | some entry =>
    let parts := jsSplitSpace entry.value
    let scheme := parts.headD ""
    if scheme = "Bearer" then .ok parts[1]?
    else .error "EINVAL"

/-!
## `src/getAuthorizedRequest.js`
-/

/-- The `this` context `getAuthorizedRequest` is called with. -/
structure AuthCtx where
  tokenCookieName : String
  getAuthorizedPatterns : Option String → Except String (List String)

/-- Embedding of `getAuthorizedRequest.js`.  `regexTest pat uri` models
`(new RegExp(pat)).test(uri)` (the JavaScript regex engine, unanchored by
default); `parseCookies` models the external
`@sspiff/handyaws/lambdaEdge/parseCookies` collaborator, which turns request
headers into a cookie-name-to-value mapping.  An absent cookie yields `none`
(JavaScript `undefined`), which is passed to `getAuthorizedPatterns`
unchecked; a non-matching pattern set throws `'EACCES'`. -/
def getAuthorizedRequest (regexTest : String → String → Bool)
    (parseCookies : Headers → List (String × String))
    (ctx : AuthCtx) (event : Event) : Except String Request :=
  match event.Records.head? with
  | none => .error "TypeError"
  | some r0 =>
    let request := r0.cf.request
    let token := (parseCookies request.headers).lookup ctx.tokenCookieName
    (ctx.getAuthorizedPatterns token).bind fun patterns =>
      if patterns.any fun re => regexTest re request.uri then .ok request
      else .error "EACCES"

/-!
## `src/frontAuth.js` (the default export)
-/

/-- The swizzling step of `frontAuth` (source lines 122-133), as a pure
function on the configuration: convert `clockTolerance` with `parseInt` when
`jwtVerifyOptions.clockTolerance` is truthy AND `typeof config.clockTolerance
=== 'string'` (note: the guard reads the *top-level* `config.clockTolerance`,
exactly as the source does), then split a truthy string-valued `algorithms`
on spaces after trimming. -/
def swizzleOptions {Claims : Type} (config : Config Claims) : Option JwtVerifyOptions :=
  match config.jwtVerifyOptions with
  | none => none
  | some o =>
    let o1 :=
      if o.clockTolerance.truthy && config.clockTolerance.isString then
        { o with clockTolerance := jsParseInt o.clockTolerance }
      else o
    let o2 :=
      if o1.algorithms.truthy && o1.algorithms.isString then
        { o1 with algorithms := JSValue.list (jsSplitSpace (jsTrim o1.algorithms.strVal)) }
      else o1
    some o2

/-- Truthiness of an optional string (`undefined` and `''` are falsy). -/
def truthyStr : Option String → Bool
  | some s => s ≠ ""
  | none => false

/-- The issuance-branch guard of `frontAuth` (source lines 149-150):
`config.setCookieUri && this.getSetCookieToken && request.uri ===
config.setCookieUri`.  `hasGetTok` is the truthiness of
`this.getSetCookieToken`.  Note that the request *method* is not consulted. -/
def isIssuanceRequest {Claims : Type} (config : Config Claims)
    (hasGetTok : Bool) (uri : String) : Bool :=
  truthyStr config.setCookieUri && hasGetTok && uri == config.setCookieUri.getD ""

/-- The translation `(config.tokenCookieConfig || '').trim().split(' ').join('; ')`
(source line 152-153). -/
def translateCookieConfig (tokenCookieConfig : Option String) : String :=
  String.intercalate "; " (jsSplitSpace (jsTrim (tokenCookieConfig.getD "")))

/-- JavaScript template-literal rendering of a possibly-`undefined` string. -/
def jsString : Option String → String
  | some s => s
  | none => "undefined"

/-- The issuance branch of `frontAuth` (source lines 151-159): extract the
submitted token with the bound helper, translate the cookie configuration,
await verification, then build the cookie-setting response. -/
def issuanceFlow {Claims : Type} (jwtVerify : VerifyFn Claims)
    (jvo : Option JwtVerifyOptions) (config : Config Claims)
    (getSetCookieToken : Request → Except String (Option String))
    (request : Request) : Except String FrontAuthResult :=
  (getSetCookieToken request).bind fun token =>
    let cookieConfig := translateCookieConfig config.tokenCookieConfig
    (jwtVerify token config.keyPairName jvo).bind fun _ =>
      .ok (.response (setCookieResponse
        { cookieName := config.tokenCookieName
          cookieConfig := cookieConfig
          token := jsString token }))

/-- The authorization branch of `frontAuth` (source lines 161-167): call
`getAuthorizedRequest` with a `this` whose `getAuthorizedPatterns` verifies
the token and then derives patterns from the verified claims
(`this.getAuthorizedPatterns.call(config, claims)`). -/
def authorizationFlow {Claims : Type} (regexTest : String → String → Bool)
    (parseCookies : Headers → List (String × String))
    (jwtVerify : VerifyFn Claims) (jvo : Option JwtVerifyOptions)
    (config : Config Claims)
    (getAuthorizedPatterns : Config Claims → Claims → Except String (List String))
    (event : Event) : Except String FrontAuthResult :=
  (getAuthorizedRequest regexTest parseCookies
    { tokenCookieName := config.tokenCookieName
      getAuthorizedPatterns := fun token =>
        (jwtVerify token config.keyPairName jvo).bind fun claims =>
          getAuthorizedPatterns config claims }
    event).map FrontAuthResult.request

/-- The body of `frontAuth`'s `try` block: resolve configuration, swizzle the
verify options, install the default external verifier when
`config.jwtVerify` is absent, read `event.Records[0].cf.request`, then branch
on the issuance guard.  `getConfig` models the awaited
`getConfigFromTags(...)` call; `defaultJwtVerify` models the external
`jwtVerify` bound to the `PublicKeyCache`. -/
def frontAuthE {Claims : Type} (regexTest : String → String → Bool)
    (parseCookies : Headers → List (String × String))
    (defaultJwtVerify : VerifyFn Claims)
    (getConfig : Except String (Config Claims))
    (self : BoundThis Claims) (event : Event) : Except String FrontAuthResult :=
  getConfig.bind fun config =>
    let jvo := swizzleOptions config
    let jwtVerify := config.jwtVerify.getD defaultJwtVerify
    match event.Records.head? with
    | none => .error "TypeError"
    | some r0 =>
      let request := r0.cf.request
      match self.getSetCookieToken with
      | some getTok =>
        if isIssuanceRequest config true request.uri then
          issuanceFlow jwtVerify jvo config getTok request
        else
          authorizationFlow regexTest parseCookies jwtVerify jvo config
            self.getAuthorizedPatterns event
      | none =>
        authorizationFlow regexTest parseCookies jwtVerify jvo config
          self.getAuthorizedPatterns event

/-- Embedding of `frontAuth`: the `try` body with its single `catch` boundary, which maps
every thrown error / rejected promise to the Forbidden response
(source lines 170-175). -/
def frontAuth {Claims : Type} (regexTest : String → String → Bool)
    (parseCookies : Headers → List (String × String))
    (defaultJwtVerify : VerifyFn Claims)
    (getConfig : Except String (Config Claims))
    (self : BoundThis Claims) (event : Event) : FrontAuthResult :=
  match frontAuthE regexTest parseCookies defaultJwtVerify getConfig self event with
  | .ok r => r
  | .error _ => .response forbiddenResponse

/-!
## Helper lemmas
-/

theorem exceptBind_ok {ε α β : Type} (a : α) (f : α → Except ε β) :
    (Except.ok a : Except ε α).bind f = f a := rfl

theorem exceptBind_error {ε α β : Type} (e : ε) (f : α → Except ε β) :
    (Except.error e : Except ε α).bind f = .error e := rfl

theorem exceptMap_ok {ε α β : Type} (f : α → β) (a : α) :
    (Except.ok a : Except ε α).map f = .ok (f a) := rfl

theorem exceptMap_error {ε α β : Type} (f : α → β) (e : ε) :
    (Except.error e : Except ε α).map f = .error e := rfl

/-!
## Concrete fixtures used by witnesses and counterexamples
-/

/-- A concrete request. -/
def mkRequest (method uri : String) (headers : Headers) : Request :=
  { method := method, uri := uri, headers := headers }

/-- A one-record event around a request, as CloudFront delivers it. -/
def mkEvent (r : Request) : Event :=
  { Records := [{ cf := { request := r } }] }

/-- A concrete resolved configuration (mirrors the repository's test
fixture). -/
def baseConfig : Config Unit :=
  { keyPairName := "testkey"
    publicKeyStore := "test:///store/"
    setCookieUri := some "/setcookie"
    tokenCookieName := "testtoken"
    tokenCookieConfig := none
    clockTolerance := .undefined
    jwtVerifyOptions := none
    jwtVerify := none }

/-- A verification capability that accepts every token. -/
def okVerify : VerifyFn Unit := fun _ _ _ => .ok ()

/-- A verification capability that rejects every token. -/
def badVerify : VerifyFn Unit := fun _ _ _ => .error "TokenInvalid"

/-- A cookie parser that finds no cookies. -/
def noCookies : Headers → List (String × String) := fun _ => []

/-- A regex engine under which nothing matches. -/
def noRegex : String → String → Bool := fun _ _ => false

/-- A regex engine under which everything matches. -/
def allRegex : String → String → Bool := fun _ _ => true

/-- A bound `this` supplying both helpers. -/
def selfBase : BoundThis Unit :=
  { getSetCookieToken := some fun _ => .ok (some "tok")
    getAuthorizedPatterns := fun _ _ => .ok [] }

/-- A bound `this` with no `getSetCookieToken` helper. -/
def selfNoTok : BoundThis Unit :=
  { getSetCookieToken := none
    getAuthorizedPatterns := fun _ _ => .ok ["^/common/.*"] }

/-!
## Claims
-/

/-- C4: for every claim set with pattern set `P` returned by the pattern
provider, a request with URI `U` is allowed (the authorization flow resolves
to the request) if and only if some pattern `p ∈ P` tests true against `U`
under the regex engine; an empty `P` always denies (throws `'EACCES'`). -/
theorem getAuthorizedRequest_allow_iff (regexTest : String → String → Bool)
    (parseCookies : Headers → List (String × String)) (ctx : AuthCtx)
    (event : Event) (r0 : CFRecord) (P : List String)
    (hr : event.Records.head? = some r0)
    (hp : ctx.getAuthorizedPatterns
      ((parseCookies r0.cf.request.headers).lookup ctx.tokenCookieName) = .ok P) :
    (getAuthorizedRequest regexTest parseCookies ctx event = .ok r0.cf.request ↔
      ∃ p ∈ P, regexTest p r0.cf.request.uri = true) ∧
    (P = [] → getAuthorizedRequest regexTest parseCookies ctx event = .error "EACCES") := by
  have hmain : getAuthorizedRequest regexTest parseCookies ctx event
      = if P.any (fun re => regexTest re r0.cf.request.uri) then .ok r0.cf.request
        else .error "EACCES" := by
    unfold getAuthorizedRequest
    rw [hr]
    simp only [hp, exceptBind_ok]
  constructor
  · rw [hmain]
    by_cases ha : P.any (fun re => regexTest re r0.cf.request.uri) = true
    · rw [if_pos ha]
      simp only [List.any_eq_true] at ha
      exact ⟨fun _ => ha, fun _ => rfl⟩
    · rw [if_neg ha]
      constructor
      · intro h
        simp at h
      · intro hx
        exact absurd (List.any_eq_true.mpr hx) ha
  · intro hP
    subst hP
    rw [hmain]
    simp

/-- C4 witness. -/
theorem getAuthorizedRequest_allow_iff_witness :
    (getAuthorizedRequest allRegex noCookies
        { tokenCookieName := "testtoken", getAuthorizedPatterns := fun _ => .ok ["^/common/.*"] }
        (mkEvent (mkRequest "GET" "/common/x" [])) = .ok (mkRequest "GET" "/common/x" []) ↔
      ∃ p ∈ ["^/common/.*"], allRegex p "/common/x" = true) ∧
    (["^/common/.*"] = ([] : List String) →
      getAuthorizedRequest allRegex noCookies
        { tokenCookieName := "testtoken", getAuthorizedPatterns := fun _ => .ok ["^/common/.*"] }
        (mkEvent (mkRequest "GET" "/common/x" [])) = .error "EACCES") :=
  getAuthorizedRequest_allow_iff allRegex noCookies
    { tokenCookieName := "testtoken", getAuthorizedPatterns := fun _ => .ok ["^/common/.*"] }
    (mkEvent (mkRequest "GET" "/common/x" [])) _ ["^/common/.*"] rfl rfl

/-- C5: when a request carries an `Authorization` header, extraction
splits the first entry's value on spaces; if the scheme component is
`"Bearer"` it returns the component after the scheme, and for any other
scheme it throws `'EINVAL'`. -/
theorem getAuthBearerToken_scheme (request : Request) (entry : HeaderEntry)
    (hh : ((request.headers.lookup "authorization").getD []).head? = some entry) :
    ((jsSplitSpace entry.value).headD "" = "Bearer" →
      getAuthBearerToken request = .ok (jsSplitSpace entry.value)[1]?) ∧
    ((jsSplitSpace entry.value).headD "" ≠ "Bearer" →
      getAuthBearerToken request = .error "EINVAL") := by
  unfold getAuthBearerToken
  rw [hh]
  constructor
  · intro h
    simp only [h, if_true]
  · intro h
    simp only [h, if_false]

/-- C5 witness. -/
theorem getAuthBearerToken_scheme_witness :
    (((jsSplitSpace "Bearer abc").headD "" = "Bearer" →
      getAuthBearerToken (mkRequest "GET" "/" [("authorization", [{ key := "Authorization", value := "Bearer abc" }])])
        = .ok (jsSplitSpace "Bearer abc")[1]?) ∧
    ((jsSplitSpace "Bearer abc").headD "" ≠ "Bearer" →
      getAuthBearerToken (mkRequest "GET" "/" [("authorization", [{ key := "Authorization", value := "Bearer abc" }])])
        = .error "EINVAL")) ∧
    getAuthBearerToken (mkRequest "GET" "/" [("authorization", [{ key := "Authorization", value := "Bearer abc" }])])
      = .ok (some "abc") :=
  ⟨getAuthBearerToken_scheme
      (mkRequest "GET" "/" [("authorization", [{ key := "Authorization", value := "Bearer abc" }])])
      { key := "Authorization", value := "Bearer abc" } rfl,
    rfl⟩

/-- C6: the issuance response always has status 204/"OK", and its
`Set-Cookie` value is `cookieName=token` when the (gatekeeper-translated)
cookie configuration is empty and `cookieName=token; cookieConfig`
otherwise, where the gatekeeper's translation turns the space-separated
`tokenCookieConfig` into semicolon-delimited form. -/
theorem setCookieResponse_shape (cookieName token : String) (tokenCookieConfig : Option String) :
    (setCookieResponse { cookieName := cookieName, cookieConfig := translateCookieConfig tokenCookieConfig, token := token }).status = "204" ∧
    (setCookieResponse { cookieName := cookieName, cookieConfig := translateCookieConfig tokenCookieConfig, token := token }).statusDescription = "OK" ∧
    (setCookieResponse { cookieName := cookieName, cookieConfig := translateCookieConfig tokenCookieConfig, token := token }).headers =
      some [("set-cookie", [{ key := "Set-Cookie", value := if translateCookieConfig tokenCookieConfig = "" then cookieName ++ "=" ++ token else cookieName ++ "=" ++ token ++ "; " ++ translateCookieConfig tokenCookieConfig }])] := by
  refine ⟨rfl, rfl, ?_⟩
  unfold setCookieResponse
  by_cases h : translateCookieConfig tokenCookieConfig = ""
  · simp [h, String.append_empty]
  · simp [h, String.append_assoc]

/-- If `getAuthorizedRequest` resolves to a request, that request is the
event's own request object. -/
theorem getAuthorizedRequest_ok_eq (regexTest : String → String → Bool)
    (parseCookies : Headers → List (String × String)) (ctx : AuthCtx)
    (event : Event) (r0 : CFRecord) (r : Request)
    (hr : event.Records.head? = some r0)
    (h : getAuthorizedRequest regexTest parseCookies ctx event = .ok r) :
    r = r0.cf.request := by
  unfold getAuthorizedRequest at h
  simp only [hr] at h
  cases hpat : ctx.getAuthorizedPatterns
      ((parseCookies r0.cf.request.headers).lookup ctx.tokenCookieName) with
  | error e =>
    simp only [hpat, exceptBind_error] at h
    exact absurd h (by simp)
  | ok P =>
    simp only [hpat, exceptBind_ok] at h
    by_cases ha : P.any (fun re => regexTest re r0.cf.request.uri) = true
    · rw [if_pos ha] at h
      exact (Except.ok.inj h).symm
    · rw [if_neg ha] at h
      simp at h

/-- If the `authorizationFlow` branch resolves successfully, the result is
the pass-through of the event's own request object. -/
theorem authorizationFlow_ok_eq {Claims : Type} (regexTest : String → String → Bool)
    (parseCookies : Headers → List (String × String)) (jwtVerify : VerifyFn Claims)
    (jvo : Option JwtVerifyOptions) (config : Config Claims)
    (getAuthorizedPatterns : Config Claims → Claims → Except String (List String))
    (event : Event) (r0 : CFRecord) (x : FrontAuthResult)
    (hr : event.Records.head? = some r0)
    (h : authorizationFlow regexTest parseCookies jwtVerify jvo config
      getAuthorizedPatterns event = .ok x) :
    x = .request r0.cf.request := by
  unfold authorizationFlow at h
  cases hga : getAuthorizedRequest regexTest parseCookies
      { tokenCookieName := config.tokenCookieName,
        getAuthorizedPatterns := fun token =>
          (jwtVerify token config.keyPairName jvo).bind fun claims =>
            getAuthorizedPatterns config claims }
      event with
  | error e =>
    rw [hga, exceptMap_error] at h
    simp at h
  | ok q =>
    rw [hga, exceptMap_ok] at h
    have hq := getAuthorizedRequest_ok_eq _ _ _ _ _ _ hr hga
    subst hq
    exact (Except.ok.inj h).symm

/-- C7: a request allowed by the authorization flow is returned by the
gatekeeper as the original request object, all fields unchanged (identity
pass-through). -/
theorem frontAuth_allow_passthrough {Claims : Type} (regexTest : String → String → Bool)
    (parseCookies : Headers → List (String × String)) (defaultJwtVerify : VerifyFn Claims)
    (getConfig : Except String (Config Claims)) (self : BoundThis Claims)
    (event : Event) (r0 : CFRecord) (r : Request)
    (hr : event.Records.head? = some r0)
    (h : frontAuth regexTest parseCookies defaultJwtVerify getConfig self event
      = .request r) :
    r = r0.cf.request := by
  have hE : frontAuthE regexTest parseCookies defaultJwtVerify getConfig self event
      = .ok (.request r) := by
    unfold frontAuth at h
    cases hE0 : frontAuthE regexTest parseCookies defaultJwtVerify getConfig self event with
    | error e =>
      rw [hE0] at h
      simp [forbiddenResponse] at h
    | ok x =>
      rw [hE0] at h
      change x = FrontAuthResult.request r at h
      rw [h]
  unfold frontAuthE at hE
  cases hc : getConfig with
  | error e =>
    simp only [hc, exceptBind_error] at hE
    exact absurd hE (by simp)
  | ok cfg =>
    simp only [hc, exceptBind_ok, hr] at hE
    cases hgst : self.getSetCookieToken with
    | some getTok =>
      simp only [hgst] at hE
      by_cases hiss : isIssuanceRequest cfg true r0.cf.request.uri = true
      · rw [if_pos hiss] at hE
        exfalso
        unfold issuanceFlow at hE
        cases htok : getTok r0.cf.request with
        | error e =>
          simp only [htok, exceptBind_error] at hE
          exact absurd hE (by simp)
        | ok tok =>
          simp only [htok, exceptBind_ok] at hE
          cases hv : (cfg.jwtVerify.getD defaultJwtVerify) tok cfg.keyPairName
              (swizzleOptions cfg) with
          | error e =>
            simp only [hv, exceptBind_error] at hE
            exact absurd hE (by simp)
          | ok c =>
            simp only [hv, exceptBind_ok] at hE
            simp at hE
      · rw [if_neg hiss] at hE
        exact FrontAuthResult.request.inj
          (authorizationFlow_ok_eq _ _ _ _ _ _ _ _ _ hr hE)
    | none =>
      simp only [hgst] at hE
      exact FrontAuthResult.request.inj
        (authorizationFlow_ok_eq _ _ _ _ _ _ _ _ _ hr hE)

/-- C7 witness. -/
theorem frontAuth_allow_passthrough_witness :
    mkRequest "GET" "/common/x" [] = ({ cf := { request := mkRequest "GET" "/common/x" [] } } : CFRecord).cf.request :=
  frontAuth_allow_passthrough allRegex noCookies okVerify (.ok baseConfig) selfNoTok
    (mkEvent (mkRequest "GET" "/common/x" []))
    { cf := { request := mkRequest "GET" "/common/x" [] } }
    (mkRequest "GET" "/common/x" []) rfl rfl

/-- C1 counterexample: a `GET` request whose URI equals the configured
`setCookieUri` still enters the issuance flow and receives the
cookie-setting 204 response — the source never consults `request.method`,
so "only POST requests enter the issuance flow" is false. -/
theorem frontAuth_get_enters_issuance :
    (mkRequest "GET" "/setcookie" []).method = "GET" ∧
    frontAuth noRegex noCookies okVerify (.ok baseConfig) selfBase
        (mkEvent (mkRequest "GET" "/setcookie" []))
      = .response { status := "204", statusDescription := "OK", headers := some [("set-cookie", [{ key := "Set-Cookie", value := "testtoken=tok" }])] } :=
  ⟨rfl, rfl⟩

/-- C1 (amended): with a `getSetCookieToken` helper bound, the gatekeeper
enters the issuance flow if and only if the configured `setCookieUri` is a
non-empty string equal to the request URI — the request method is not
consulted; every other request is processed by the authorization flow. -/
theorem frontAuth_issuance_classification {Claims : Type} (regexTest : String → String → Bool)
    (parseCookies : Headers → List (String × String)) (defaultJwtVerify : VerifyFn Claims)
    (getConfig : Except String (Config Claims)) (self : BoundThis Claims)
    (event : Event) (cfg : Config Claims) (r0 : CFRecord)
    (getTok : Request → Except String (Option String))
    (hc : getConfig = .ok cfg) (hr : event.Records.head? = some r0)
    (hg : self.getSetCookieToken = some getTok) :
    frontAuthE regexTest parseCookies defaultJwtVerify getConfig self event =
      if isIssuanceRequest cfg true r0.cf.request.uri then
        issuanceFlow (cfg.jwtVerify.getD defaultJwtVerify) (swizzleOptions cfg) cfg getTok
          r0.cf.request
      else
        authorizationFlow regexTest parseCookies (cfg.jwtVerify.getD defaultJwtVerify)
          (swizzleOptions cfg) cfg self.getAuthorizedPatterns event := by
  unfold frontAuthE
  simp only [hc, exceptBind_ok, hr, hg]

/-- C1 (amended) witness. -/
theorem frontAuth_issuance_classification_witness :
    frontAuthE noRegex noCookies okVerify (.ok baseConfig) selfBase
        (mkEvent (mkRequest "GET" "/setcookie" [])) =
      if isIssuanceRequest baseConfig true (mkRequest "GET" "/setcookie" []).uri then
        issuanceFlow (baseConfig.jwtVerify.getD okVerify) (swizzleOptions baseConfig) baseConfig
          (fun _ => .ok (some "tok")) (mkRequest "GET" "/setcookie" [])
      else
        authorizationFlow noRegex noCookies (baseConfig.jwtVerify.getD okVerify)
          (swizzleOptions baseConfig) baseConfig selfBase.getAuthorizedPatterns
          (mkEvent (mkRequest "GET" "/setcookie" [])) :=
  frontAuth_issuance_classification noRegex noCookies okVerify (.ok baseConfig) selfBase
    (mkEvent (mkRequest "GET" "/setcookie" []))
    baseConfig { cf := { request := mkRequest "GET" "/setcookie" [] } }
    (fun _ => .ok (some "tok")) rfl rfl rfl

/-- C2: every failing invocation — whatever step failed — returns exactly
the record `{status: '403', statusDescription: 'Forbidden'}`, and any two
failing invocations produce identical outputs. -/
theorem frontAuth_uniform_failure {Claims1 Claims2 : Type}
    (regexTest1 : String → String → Bool) (parseCookies1 : Headers → List (String × String))
    (defaultJwtVerify1 : VerifyFn Claims1) (getConfig1 : Except String (Config Claims1))
    (self1 : BoundThis Claims1) (event1 : Event) (e1 : String)
    (regexTest2 : String → String → Bool) (parseCookies2 : Headers → List (String × String))
    (defaultJwtVerify2 : VerifyFn Claims2) (getConfig2 : Except String (Config Claims2))
    (self2 : BoundThis Claims2) (event2 : Event) (e2 : String)
    (h1 : frontAuthE regexTest1 parseCookies1 defaultJwtVerify1 getConfig1 self1 event1
      = .error e1)
    (h2 : frontAuthE regexTest2 parseCookies2 defaultJwtVerify2 getConfig2 self2 event2
      = .error e2) :
    frontAuth regexTest1 parseCookies1 defaultJwtVerify1 getConfig1 self1 event1
      = .response { status := "403", statusDescription := "Forbidden", headers := none } ∧
    frontAuth regexTest1 parseCookies1 defaultJwtVerify1 getConfig1 self1 event1
      = frontAuth regexTest2 parseCookies2 defaultJwtVerify2 getConfig2 self2 event2 := by
  unfold frontAuth
  rw [h1, h2]
  exact ⟨rfl, rfl⟩

/-- C2 witness: a configuration-resolution failure and a
token-verification failure yield the same Forbidden record. -/
theorem frontAuth_uniform_failure_witness :
    frontAuth noRegex noCookies okVerify (.error "ConfigUnavailable") selfBase
        (mkEvent (mkRequest "GET" "/x" []))
      = .response { status := "403", statusDescription := "Forbidden", headers := none } ∧
    frontAuth noRegex noCookies okVerify (.error "ConfigUnavailable") selfBase
        (mkEvent (mkRequest "GET" "/x" []))
      = frontAuth noRegex noCookies badVerify (.ok baseConfig) selfBase
          (mkEvent (mkRequest "GET" "/x" [])) :=
  frontAuth_uniform_failure noRegex noCookies okVerify (.error "ConfigUnavailable") selfBase
    (mkEvent (mkRequest "GET" "/x" [])) "ConfigUnavailable"
    noRegex noCookies badVerify (.ok baseConfig) selfBase
    (mkEvent (mkRequest "GET" "/x" [])) "TokenInvalid" rfl rfl

/-- C3: a token authorizes only after verification succeeds.  First
conjunct: in the issuance flow, a submitted token that fails verification
yields Forbidden — no `Set-Cookie` response is built.  Second conjunct: the
pattern-derivation helper only ever sees claims produced by a successful
verification — replacing it by any helper that agrees on all successfully
verified claims leaves every invocation's outcome unchanged. -/
theorem frontAuth_no_partial_trust {Claims : Type} (regexTest : String → String → Bool)
    (parseCookies : Headers → List (String × String)) (defaultJwtVerify : VerifyFn Claims)
    (getConfig : Except String (Config Claims)) (self : BoundThis Claims)
    (event : Event) (cfg : Config Claims) (r0 : CFRecord)
    (getTok : Request → Except String (Option String)) (tok : Option String) (e : String)
    (hc : getConfig = .ok cfg) (hr : event.Records.head? = some r0)
    (hg : self.getSetCookieToken = some getTok)
    (hiss : isIssuanceRequest cfg true r0.cf.request.uri = true)
    (htok : getTok r0.cf.request = .ok tok)
    (hv : (cfg.jwtVerify.getD defaultJwtVerify) tok cfg.keyPairName (swizzleOptions cfg)
      = .error e) :
    frontAuth regexTest parseCookies defaultJwtVerify getConfig self event
      = .response forbiddenResponse ∧
    ∀ (getConfig2 : Except String (Config Claims)) (self2 : BoundThis Claims) (event2 : Event)
      (g : Config Claims → Claims → Except String (List String)),
      (∀ (cfg2 : Config Claims) (c : Claims),
        (∃ t : Option String,
          (cfg2.jwtVerify.getD defaultJwtVerify) t cfg2.keyPairName (swizzleOptions cfg2)
            = .ok c) →
        self2.getAuthorizedPatterns cfg2 c = g cfg2 c) →
      frontAuth regexTest parseCookies defaultJwtVerify getConfig2 self2 event2 =
        frontAuth regexTest parseCookies defaultJwtVerify getConfig2
          { self2 with getAuthorizedPatterns := g } event2 := by
  constructor
  · unfold frontAuth frontAuthE
    simp only [hc, exceptBind_ok, hr, hg]
    rw [if_pos hiss]
    unfold issuanceFlow
    simp only [htok, exceptBind_ok, hv, exceptBind_error]
  · intro getConfig2 self2 event2 g hagree
    unfold frontAuth frontAuthE
    cases hc2 : getConfig2 with
    | error e2 => simp only [hc2, exceptBind_error]
    | ok cfg2 =>
      simp only [hc2, exceptBind_ok]
      cases hr2 : event2.Records.head? with
      | none => rfl
      | some r2 =>
        simp only [hr2]
        have htail : authorizationFlow regexTest parseCookies
            (cfg2.jwtVerify.getD defaultJwtVerify) (swizzleOptions cfg2) cfg2
            self2.getAuthorizedPatterns event2
            = authorizationFlow regexTest parseCookies
              (cfg2.jwtVerify.getD defaultJwtVerify) (swizzleOptions cfg2) cfg2 g event2 := by
          unfold authorizationFlow getAuthorizedRequest
          simp only [hr2]
          cases hv2 : (cfg2.jwtVerify.getD defaultJwtVerify)
              ((parseCookies r2.cf.request.headers).lookup cfg2.tokenCookieName)
              cfg2.keyPairName (swizzleOptions cfg2) with
          | error e2 =>
            simp only [hv2, exceptBind_error]
          | ok c =>
            simp only [hv2, exceptBind_ok, hagree cfg2 c ⟨_, hv2⟩]
        cases hgst2 : self2.getSetCookieToken with
        | some getTok2 =>
          simp only [hgst2]
          rw [htail]
        | none =>
          simp only [hgst2]
          rw [htail]

/-- C3 witness: a concrete issuance request whose submitted token fails
verification is Forbidden, and the provider-congruence holds. -/
theorem frontAuth_no_partial_trust_witness :
    frontAuth noRegex noCookies badVerify (.ok baseConfig) selfBase
        (mkEvent (mkRequest "POST" "/setcookie" []))
      = .response forbiddenResponse ∧
    ∀ (getConfig2 : Except String (Config Unit)) (self2 : BoundThis Unit) (event2 : Event)
      (g : Config Unit → Unit → Except String (List String)),
      (∀ (cfg2 : Config Unit) (c : Unit),
        (∃ t : Option String,
          (cfg2.jwtVerify.getD badVerify) t cfg2.keyPairName (swizzleOptions cfg2)
            = .ok c) →
        self2.getAuthorizedPatterns cfg2 c = g cfg2 c) →
      frontAuth noRegex noCookies badVerify getConfig2 self2 event2 =
        frontAuth noRegex noCookies badVerify getConfig2
          { self2 with getAuthorizedPatterns := g } event2 :=
  frontAuth_no_partial_trust noRegex noCookies badVerify (.ok baseConfig) selfBase
    (mkEvent (mkRequest "POST" "/setcookie" []))
    baseConfig { cf := { request := mkRequest "POST" "/setcookie" [] } }
    (fun _ => .ok (some "tok")) (some "tok") "TokenInvalid" rfl rfl rfl rfl rfl rfl

/-- C8: in the authorization flow, when the request headers contain no
cookie with the configured token cookie name, the invocation is Forbidden.
The cookie parser yields no entry, so `undefined` is passed to the
verification capability, which rejects a missing token (`hv`, per the
specification's contract: a malformed/absent token fails verification). -/
theorem frontAuth_missing_cookie_forbidden {Claims : Type} (regexTest : String → String → Bool)
    (parseCookies : Headers → List (String × String)) (defaultJwtVerify : VerifyFn Claims)
    (getConfig : Except String (Config Claims)) (self : BoundThis Claims)
    (event : Event) (cfg : Config Claims) (r0 : CFRecord) (e : String)
    (hc : getConfig = .ok cfg) (hr : event.Records.head? = some r0)
    (hclass : isIssuanceRequest cfg self.getSetCookieToken.isSome r0.cf.request.uri = false)
    (habsent : (parseCookies r0.cf.request.headers).lookup cfg.tokenCookieName = none)
    (hv : (cfg.jwtVerify.getD defaultJwtVerify) none cfg.keyPairName (swizzleOptions cfg)
      = .error e) :
    frontAuth regexTest parseCookies defaultJwtVerify getConfig self event
      = .response forbiddenResponse := by
  have htail : authorizationFlow regexTest parseCookies (cfg.jwtVerify.getD defaultJwtVerify)
      (swizzleOptions cfg) cfg self.getAuthorizedPatterns event = .error e := by
    unfold authorizationFlow getAuthorizedRequest
    simp only [hr, habsent, hv, exceptBind_error, exceptMap_error]
  unfold frontAuth frontAuthE
  simp only [hc, exceptBind_ok, hr]
  cases hgst : self.getSetCookieToken with
  | some getTok =>
    simp only [hgst, Option.isSome_some] at hclass
    simp only [hgst]
    rw [if_neg (by simp [hclass]), htail]
  | none =>
    simp only [hgst]
    rw [htail]

/-- C8 witness. -/
theorem frontAuth_missing_cookie_forbidden_witness :
    frontAuth noRegex noCookies badVerify (.ok baseConfig) selfBase
        (mkEvent (mkRequest "GET" "/common/x" []))
      = .response forbiddenResponse :=
  frontAuth_missing_cookie_forbidden noRegex noCookies badVerify (.ok baseConfig) selfBase
    (mkEvent (mkRequest "GET" "/common/x" []))
    baseConfig { cf := { request := mkRequest "GET" "/common/x" [] } }
    "TokenInvalid" rfl rfl rfl rfl rfl

/-- The resolved configuration exhibiting the swizzle defect: the documented
tag namespace nests `clockTolerance` under `jwtVerifyOptions`, and there is
no top-level `config.clockTolerance`. -/
def config9 : Config Unit :=
  { baseConfig with jwtVerifyOptions := some { algorithms := JSValue.str "ES256", clockTolerance := JSValue.str "5", maxAge := JSValue.str "10s" } }

/-- C9 (code bug): the swizzle step splits a string-valued `algorithms`
into a list and leaves `maxAge` untouched, but it does NOT convert the
string-valued `clockTolerance` to an integer: the guard tests
`typeof config.clockTolerance === 'string'` (the top-level property, which
is `undefined` under the documented tag layout) instead of
`jwtVerifyOptions.clockTolerance`, so `parseInt` is never applied —
contradicting both the claim and the source's own documentation table. -/
theorem swizzleOptions_leaves_clockTolerance_string :
    swizzleOptions config9
      = some { algorithms := JSValue.list ["ES256"], clockTolerance := JSValue.str "5", maxAge := JSValue.str "10s" } ∧
    (swizzleOptions config9).map (fun o => o.clockTolerance)
      ≠ some (jsParseInt (JSValue.str "5")) := by
  exact ⟨rfl, by decide⟩

/-- C10: when a configuration succeeds but `setCookieUri` is falsy or no
`getSetCookieToken` helper is bound, every request — even a `POST` to the
would-be set-cookie path — goes through the authorization flow, and no
cookie-setting response can be produced: the only response shape reachable
is the Forbidden record. -/
theorem frontAuth_no_issuance_when_unconfigured {Claims : Type}
    (regexTest : String → String → Bool) (parseCookies : Headers → List (String × String))
    (defaultJwtVerify : VerifyFn Claims) (getConfig : Except String (Config Claims))
    (self : BoundThis Claims) (event : Event) (cfg : Config Claims) (r0 : CFRecord)
    (hc : getConfig = .ok cfg) (hr : event.Records.head? = some r0)
    (hdis : truthyStr cfg.setCookieUri = false ∨ self.getSetCookieToken = none) :
    frontAuthE regexTest parseCookies defaultJwtVerify getConfig self event =
      authorizationFlow regexTest parseCookies (cfg.jwtVerify.getD defaultJwtVerify)
        (swizzleOptions cfg) cfg self.getAuthorizedPatterns event ∧
    ∀ resp : Response,
      frontAuth regexTest parseCookies defaultJwtVerify getConfig self event
        = .response resp → resp = forbiddenResponse := by
  have h1 : frontAuthE regexTest parseCookies defaultJwtVerify getConfig self event =
      authorizationFlow regexTest parseCookies (cfg.jwtVerify.getD defaultJwtVerify)
        (swizzleOptions cfg) cfg self.getAuthorizedPatterns event := by
    unfold frontAuthE
    simp only [hc, exceptBind_ok, hr]
    cases hgst : self.getSetCookieToken with
    | some getTok =>
      simp only [hgst]
      cases hdis with
      | inl h =>
        have hfalse : isIssuanceRequest cfg true r0.cf.request.uri = false := by
          unfold isIssuanceRequest
          rw [h]
          rfl
        rw [if_neg (by simp [hfalse])]
      | inr h =>
        rw [hgst] at h
        simp at h
    | none =>
      simp only [hgst]
  refine ⟨h1, ?_⟩
  intro resp hresp
  unfold frontAuth at hresp
  rw [h1] at hresp
  unfold authorizationFlow at hresp
  cases hga : getAuthorizedRequest regexTest parseCookies
      { tokenCookieName := cfg.tokenCookieName,
        getAuthorizedPatterns := fun token =>
          ((cfg.jwtVerify.getD defaultJwtVerify) token cfg.keyPairName
            (swizzleOptions cfg)).bind fun claims =>
              self.getAuthorizedPatterns cfg claims }
      event with
  | error e =>
    rw [hga, exceptMap_error] at hresp
    change FrontAuthResult.response forbiddenResponse = FrontAuthResult.response resp at hresp
    exact (FrontAuthResult.response.inj hresp).symm
  | ok q =>
    rw [hga, exceptMap_ok] at hresp
    change FrontAuthResult.request q = FrontAuthResult.response resp at hresp
    exact absurd hresp (by simp)

/-- C10 witness: a `POST` to the set-cookie path with no helper bound is
still processed by the authorization flow. -/
theorem frontAuth_no_issuance_when_unconfigured_witness :
    frontAuthE noRegex noCookies badVerify (.ok baseConfig) selfNoTok
        (mkEvent (mkRequest "POST" "/setcookie" [])) =
      authorizationFlow noRegex noCookies (baseConfig.jwtVerify.getD badVerify)
        (swizzleOptions baseConfig) baseConfig selfNoTok.getAuthorizedPatterns
        (mkEvent (mkRequest "POST" "/setcookie" [])) ∧
    ∀ resp : Response,
      frontAuth noRegex noCookies badVerify (.ok baseConfig) selfNoTok
          (mkEvent (mkRequest "POST" "/setcookie" []))
        = .response resp → resp = forbiddenResponse :=
  frontAuth_no_issuance_when_unconfigured noRegex noCookies badVerify (.ok baseConfig)
    selfNoTok (mkEvent (mkRequest "POST" "/setcookie" []))
    baseConfig { cf := { request := mkRequest "POST" "/setcookie" [] } }
    rfl rfl (Or.inr rfl)
